import Mathlib

/-!
Shallow embedding of the flight-delay prediction API
(`Bloque 1 - APIs Modelos/app.py`).

The Pydantic model `FlightData` is embedded as a structure of the declared
field types plus a boolean validity predicate for the `Field` constraints
(`distance` has `ge=100, le=5000`; `flight_id` and `bad_weather` carry no
constraints beyond their types).  FastAPI runs this schema validation on the
request body before a handler is invoked; a failure produces a 422 response
and the handler never runs.  For `predict_batch`, whose body is
`List[FlightData]`, validation of the whole list fails as soon as any item
fails.

The pickled classifier is embedded as an abstract function from the feature
list to either an error (a raised exception, carried as its message string)
or a two-class probability distribution `(p_class0, p_class1)`; floats are
modelled as rationals.  The global counter `prediction_count` is threaded
explicitly: each handler takes the counter before the request and returns it
after, including on the error path (a Python exception does not roll back
prior increments of a global).
-/

namespace FlightApi

/-- Pydantic model `FlightData`: `flight_id: str`,
`distance: int = Field(..., ge=100, le=5000)`, `bad_weather: bool`. -/
structure FlightData where
  flight_id : String
  distance : Int
  bad_weather : Bool
deriving DecidableEq, Repr

/-- The `Field` constraints Pydantic checks on a `FlightData` body:
`100 ≤ distance ≤ 5000`.  No constraint is declared on `flight_id`
(any string, the empty string included) nor on `bad_weather`. -/
def flightDataValid (d : FlightData) : Bool :=
  100 ≤ d.distance && d.distance ≤ 5000

/-- The loaded model, abstracted: `predict_proba` on a single feature row
either raises (error message) or returns the two-class distribution
`(P[class 0], P[class 1])`. -/
def Classifier : Type :=
  List Int → Except String (ℚ × ℚ)

/-- Shape of the JSON returned by a successful `/predict` and of each batch
item: `{flight_id, delay_probability, delayed}`. -/
structure PredictionResult where
  flight_id : String
  delay_probability : ℚ
  delayed : Bool
deriving DecidableEq, Repr

/-- `fastapi.HTTPException`: a status code and a detail message.  FastAPI's
own request-validation failure is modelled with status 422. -/
structure HTTPException where
  status_code : Nat
  detail : String
deriving DecidableEq, Repr

/-- The 422 response FastAPI produces when the request body fails schema
validation, before the handler runs. -/
def validationError : HTTPException :=
  ⟨422, "Unprocessable Entity"⟩

/-- Handler body of `predict_delay` (after FastAPI validation): builds
`features = [[distance, int(bad_weather)]]`, calls `predict_proba`, takes
component `[0][1]`, compares `> 0.5`, increments `prediction_count`, and
returns the result; any exception becomes a 500 with the cause in the
detail, leaving the counter untouched. -/
def predict_delay (model : Classifier) (data : FlightData)
    (prediction_count : Nat) :
    Except HTTPException PredictionResult × Nat :=
  match model [data.distance, if data.bad_weather then 1 else 0] with
  | Except.error e =>
      (Except.error ⟨500, "Prediction failed: " ++ e⟩, prediction_count)
  | Except.ok proba =>
      (Except.ok ⟨data.flight_id, proba.2, decide ((1 : ℚ)/2 < proba.2)⟩,
       prediction_count + 1)

/-- The `/predict` route: FastAPI schema validation of the body, then the
handler. -/
def predictRoute (model : Classifier) (body : FlightData) (count : Nat) :
    Except HTTPException PredictionResult × Nat :=
  if flightDataValid body then predict_delay model body count
  else (Except.error validationError, count)

/-- Shape of the JSON returned by a successful `/predict-batch`:
`{predictions, count}`. -/
structure BatchResult where
  predictions : List PredictionResult
  count : Nat
deriving DecidableEq, Repr

/-- The `for data in data_list` loop of `predict_batch`: scores each record
in order, appending to `results` and incrementing `prediction_count` per
item; an exception aborts the loop, discarding `results` but keeping the
increments already made to the global counter. -/
def predict_batch_loop (model : Classifier) :
    List FlightData → Nat → Except String (List PredictionResult) × Nat
  | [], count => (Except.ok [], count)
  | data :: rest, count =>
    match model [data.distance, if data.bad_weather then 1 else 0] with
    | Except.error e => (Except.error e, count)
    | Except.ok proba =>
      match predict_batch_loop model rest (count + 1) with
      | (Except.ok results, count') =>
          (Except.ok
            (⟨data.flight_id, proba.2, decide ((1 : ℚ)/2 < proba.2)⟩ ::
              results),
           count')
      | (Except.error err, count') => (Except.error err, count')

/-- Handler body of `predict_batch` (after FastAPI validation): the loop,
then `{"predictions": results, "count": len(results)}`; an exception becomes
a 500 with the cause in the detail. -/
def predict_batch (model : Classifier) (data_list : List FlightData)
    (count : Nat) : Except HTTPException BatchResult × Nat :=
  match predict_batch_loop model data_list count with
  | (Except.ok results, c) => (Except.ok ⟨results, results.length⟩, c)
  | (Except.error e, c) =>
      (Except.error ⟨500, "Batch prediction failed: " ++ e⟩, c)

/-- The `/predict-batch` route: the body is `List[FlightData]`, so FastAPI
validates every item of the list before the handler runs; if any item fails
its schema, the whole request is rejected with 422 and the handler is never
invoked. -/
def predictBatchRoute (model : Classifier) (body : List FlightData)
    (count : Nat) : Except HTTPException BatchResult × Nat :=
  if body.all flightDataValid then predict_batch model body count
  else (Except.error validationError, count)

/-- Pydantic model `ErrorData`: `raise_error: bool`. -/
structure ErrorData where
  raise_error : Bool
deriving DecidableEq, Repr

/-- Success acknowledgement shape `{status, message}`. -/
structure OkResponse where
  status : String
  message : String
deriving DecidableEq, Repr

/-- Handler `simulate_error`: if `raise_error`, raises
`HTTPException(418, "Este es un error simulado para enseñar manejo")`;
otherwise returns `{"status": "ok", "message": "No se produjo error"}`.
Reads no service state. -/
def simulate_error (data : ErrorData) : Except HTTPException OkResponse :=
  if data.raise_error then
    Except.error ⟨418, "Este es un error simulado para enseñar manejo"⟩
  else Except.ok ⟨"ok", "No se produjo error"⟩

/-- Static metadata shape returned by `/info`. -/
structure InfoResponse where
  service : String
  description : String
  version : String
  features : List String
deriving DecidableEq, Repr

/-- Handler `info`: fixed metadata, no state. -/
def info : InfoResponse :=
  ⟨"Flight Delay ML API", "API de ejemplo para enseñar FastAPI y ML", "1.0",
   ["predict", "predict-batch", "metrics", "simulate-error"]⟩

/-- Shape returned by `/metrics`. -/
structure MetricsResponse where
  total_predictions : Nat
  uptime_seconds : Int
deriving DecidableEq, Repr

/-- Handler `metrics`: reads `prediction_count` and computes
`int(time.time() - start_time)`; writes nothing. -/
def metrics (prediction_count : Nat) (start_time now : Int) :
    MetricsResponse :=
  ⟨prediction_count, now - start_time⟩

/-- Initial value of the global `prediction_count` at process start. -/
def prediction_count_init : Nat := 0

/-- One inbound request to the service.  `metricsReq` carries the current
time so that `uptime` can be computed without ambient state. -/
inductive Request where
  | predict (body : FlightData)
  | predictBatch (body : List FlightData)
  | metricsReq (now : Int)
  | infoReq
  | simulateError (body : ErrorData)

/-- One response body, tagged by which endpoint produced it. -/
inductive Response where
  | prediction (r : PredictionResult)
  | batch (b : BatchResult)
  | metricsResp (m : MetricsResponse)
  | infoResp (i : InfoResponse)
  | simResp (s : OkResponse)
deriving DecidableEq, Repr

/-- The whole service as a step function on the one piece of mutable
process state, `prediction_count`: dispatches a request to its route and
returns the response (or error) together with the counter afterwards. -/
def handle (model : Classifier) (start_time : Int) :
    Request → Nat → Except HTTPException Response × Nat
  | Request.predict body, count =>
    match predictRoute model body count with
    | (Except.ok r, c) => (Except.ok (Response.prediction r), c)
    | (Except.error e, c) => (Except.error e, c)
  | Request.predictBatch body, count =>
    match predictBatchRoute model body count with
    | (Except.ok b, c) => (Except.ok (Response.batch b), c)
    | (Except.error e, c) => (Except.error e, c)
  | Request.metricsReq now, count =>
      (Except.ok (Response.metricsResp (metrics count start_time now)), count)
  | Request.infoReq, count =>
      (Except.ok (Response.infoResp info), count)
  | Request.simulateError body, count =>
    match simulate_error body with
    | Except.ok s => (Except.ok (Response.simResp s), count)
    | Except.error e => (Except.error e, count)

/-- Number of records of a batch the loop scores successfully before it
stops: every record up to the first one on which the classifier raises. -/
def scoredLen (model : Classifier) : List FlightData → Nat
  | [] => 0
  | data :: rest =>
    match model [data.distance, if data.bad_weather then 1 else 0] with
    | Except.error _ => 0
    | Except.ok _ => 1 + scoredLen model rest

/-- A concrete classifier used for witnesses: always succeeds with
distribution `(1/4, 3/4)`. -/
def demoModel : Classifier :=
  fun _ => Except.ok (1/4, 3/4)

/-- A concrete classifier used for witnesses: always succeeds with the
boundary distribution `(1/2, 1/2)`. -/
def halfModel : Classifier :=
  fun _ => Except.ok (1/2, 1/2)

/-- A concrete classifier used for witnesses: raises on feature vectors
whose first component is `200`, succeeds with `(1/4, 3/4)` otherwise. -/
def flakyModel : Classifier :=
  fun fs =>
    match fs with
    | [d, _] => if d = 200 then Except.error "boom" else Except.ok (1/4, 3/4)
    | _ => Except.error "bad shape"

/-- The feature vector as the spec describes it: the fixed 2-element ordered
vector `[distance, bad_weather as 1 or 0]`. -/
def buildFeatures (d : FlightData) : List Int :=
  [d.distance, if d.bad_weather then 1 else 0]

lemma predict_batch_loop_count (model : Classifier) (l : List FlightData)
    (count : Nat) :
    (predict_batch_loop model l count).2 = count + scoredLen model l := by
  induction l generalizing count with
  | nil => simp [predict_batch_loop, scoredLen]
  | cons d rest ih =>
    simp only [predict_batch_loop, scoredLen]
    cases hm : model [d.distance, if d.bad_weather then 1 else 0] with
    | error e => simp
    | ok p =>
      have h := ih (count + 1)
      rcases hr : predict_batch_loop model rest (count + 1) with ⟨res, c'⟩
      rw [hr] at h
      cases res <;> simp at h ⊢ <;> omega

lemma predict_batch_loop_ok (model : Classifier) (proba : FlightData → ℚ × ℚ)
    (l : List FlightData) (count : Nat)
    (h : ∀ d ∈ l,
      model [d.distance, if d.bad_weather then 1 else 0]
        = Except.ok (proba d)) :
    predict_batch_loop model l count =
      (Except.ok (l.map fun d =>
        ⟨d.flight_id, (proba d).2, decide ((1 : ℚ)/2 < (proba d).2)⟩),
       count + l.length) := by
  induction l generalizing count with
  | nil => simp [predict_batch_loop]
  | cons d rest ih =>
    have hd := h d (List.mem_cons_self d rest)
    have hrest : ∀ x ∈ rest,
        model [x.distance, if x.bad_weather then 1 else 0]
          = Except.ok (proba x) :=
      fun x hx => h x (List.mem_cons_of_mem d hx)
    simp only [predict_batch_loop, hd, ih (count + 1) hrest, List.map_cons,
      List.length_cons, Prod.mk.injEq]
    exact ⟨trivial, by omega⟩

lemma predict_batch_loop_err (model : Classifier) (pre : List FlightData)
    (bad : FlightData) (rest : List FlightData) (count : Nat) (e : String)
    (hpre : ∀ d ∈ pre, ∃ p,
      model [d.distance, if d.bad_weather then 1 else 0] = Except.ok p)
    (hbad : model [bad.distance, if bad.bad_weather then 1 else 0]
      = Except.error e) :
    predict_batch_loop model (pre ++ bad :: rest) count
      = (Except.error e, count + pre.length) := by
  induction pre generalizing count with
  | nil => simp [predict_batch_loop, hbad]
  | cons d pre' ih =>
    obtain ⟨p, hp⟩ := hpre d (List.mem_cons_self d pre')
    have hpre' : ∀ x ∈ pre', ∃ q,
        model [x.distance, if x.bad_weather then 1 else 0] = Except.ok q :=
      fun x hx => hpre x (List.mem_cons_of_mem d hx)
    have harith : count + 1 + pre'.length = count + (pre'.length + 1) := by
      omega
    simp only [List.cons_append, predict_batch_loop, hp, List.append_eq,
      ih (count + 1) hpre', List.length_cons]
    rw [harith]

lemma predict_batch_loop_mem (model : Classifier) (l : List FlightData)
    (count c' : Nat) (res : List PredictionResult)
    (h : predict_batch_loop model l count = (Except.ok res, c')) :
    ∀ r ∈ res, r.delayed = decide ((1 : ℚ)/2 < r.delay_probability) := by
  induction l generalizing count c' res with
  | nil =>
    simp [predict_batch_loop] at h
    simp [h.1]
  | cons d rest ih =>
    simp only [predict_batch_loop] at h
    cases hm : model [d.distance, if d.bad_weather then 1 else 0] with
    | error e => rw [hm] at h; simp at h
    | ok p =>
      rw [hm] at h
      rcases hr : predict_batch_loop model rest (count + 1) with ⟨inner, c''⟩
      rw [hr] at h
      cases inner with
      | error err => simp at h
      | ok results =>
        simp only [Prod.mk.injEq, Except.ok.injEq] at h
        intro r hr'
        rw [← h.1] at hr'
        rcases List.mem_cons.mp hr' with hhead | htail
        · rw [hhead]
        · exact ih (count + 1) c'' results (by rw [hr, h.2]) r htail

lemma delayed_spec (r : PredictionResult)
    (h : r.delayed = decide ((1 : ℚ)/2 < r.delay_probability)) :
    (r.delayed = true ↔ (1 : ℚ)/2 < r.delay_probability) ∧
    (r.delay_probability = 1/2 → r.delayed = false) := by
  constructor
  · rw [h]; exact decide_eq_true_iff
  · intro hb; rw [h, hb]; simp

/-- C1: the claimed silent dropping of schema-invalid batch items does not
happen in the code.  The batch body is `List[FlightData]`, so FastAPI
validates the whole list before the handler runs: on the mixed batch
`[{A, 500, false}, {B, 50, false}]` (the second record's distance 50 is
below 100) the whole request is rejected with a 422 validation error — no
predictions and no count are returned for the valid record `A`, and the
counter does not move — instead of returning `predictions = [A]` and
`count = 1` as the claim (and the code's own comments) describe. -/
theorem spec_C1 :
    predictBatchRoute demoModel [⟨"A", 500, false⟩, ⟨"B", 50, false⟩] 0
      = (Except.error validationError, 0) ∧
    validationError.status_code = 422 :=
  ⟨rfl, rfl⟩

/-- C2 counterexample: a request whose `flight_id` is the empty string is
NOT rejected.  `FlightData.flight_id` is declared as a bare `str` with no
non-empty constraint, so `{"", 500, false}` passes schema validation, the
classifier is invoked, the response is produced from its output, and
`total_predictions` is incremented from 7 to 8 — contradicting the claim
that it fails with a ValidationError before the Scorer is invoked and
leaves the counter unchanged. -/
theorem spec_C2_cex :
    flightDataValid ⟨"", 500, false⟩ = true ∧
    predictRoute demoModel ⟨"", 500, false⟩ 7
      = (Except.ok ⟨"", 3/4, true⟩, 8) := by
  refine ⟨rfl, ?_⟩
  norm_num [predictRoute, predict_delay, demoModel, flightDataValid]

/-- C2 amended: for every prediction request whose distance lies outside
`[100, 5000]`, the request fails with the 422 validation error before the
Scorer is invoked (the outcome is the same for every classifier, which is
therefore never consulted) and the counter is returned unchanged.  The
empty-`flight_id` half of the original claim is dropped: the schema places
no non-emptiness constraint on `flight_id`. -/
theorem spec_C2 (model : Classifier) (r : FlightData) (count : Nat)
    (h : r.distance < 100 ∨ 5000 < r.distance) :
    predictRoute model r count = (Except.error validationError, count) := by
  have hv : flightDataValid r = false := by
    simp only [flightDataValid, Bool.and_eq_false_iff, decide_eq_false_iff_not,
      not_le]
    omega
  simp [predictRoute, hv]

/-- Witness for the amended C2 at the spec's own example distances 50 and
6000. -/
theorem spec_C2_witness :
    predictRoute demoModel ⟨"LOW", 50, false⟩ 3
      = (Except.error validationError, 3) ∧
    predictRoute demoModel ⟨"HIGH", 6000, true⟩ 3
      = (Except.error validationError, 3) :=
  ⟨spec_C2 demoModel ⟨"LOW", 50, false⟩ 3 (Or.inl (by norm_num)),
   spec_C2 demoModel ⟨"HIGH", 6000, true⟩ 3 (Or.inr (by norm_num))⟩

/-- C7: a batch request with an empty input list succeeds — it is not an
error — returning exactly `predictions = []` and `count = 0`, and the
counter is returned unchanged, for every classifier and every starting
counter value. -/
theorem spec_C7 (model : Classifier) (count : Nat) :
    predictBatchRoute model [] count = (Except.ok ⟨[], 0⟩, count) :=
  rfl

/-- C9: with `raise_error = true` the error simulator deterministically
fails with status 418 — distinct from the 422 validation kind and the 500
internal-scoring kind — and the fixed message; with `raise_error = false`
it returns the fixed `{status: "ok", message: "No se produjo error"}`
acknowledgement.  It takes no service state at all, the counter after the
request equals the counter before it, and the response is independent of
the counter value. -/
theorem spec_C9 :
    simulate_error ⟨true⟩
      = Except.error ⟨418, "Este es un error simulado para enseñar manejo"⟩ ∧
    simulate_error ⟨false⟩ = Except.ok ⟨"ok", "No se produjo error"⟩ ∧
    ((418 : Nat) ≠ validationError.status_code ∧ (418 : Nat) ≠ 500) ∧
    (∀ (model : Classifier) (start : Int) (b : ErrorData) (count : Nat),
      (handle model start (Request.simulateError b) count).2 = count) ∧
    (∀ (model : Classifier) (start : Int) (b : ErrorData) (c₁ c₂ : Nat),
      (handle model start (Request.simulateError b) c₁).1 =
        (handle model start (Request.simulateError b) c₂).1) := by
  refine ⟨rfl, rfl, ⟨by decide, by decide⟩, ?_, ?_⟩
  · intro model start b count
    rcases b with ⟨rb⟩
    cases rb <;> simp [handle, simulate_error]
  · intro model start b c₁ c₂
    rcases b with ⟨rb⟩
    cases rb <;> simp [handle, simulate_error]

/-- C3: in both handlers the `delayed` flag of every returned prediction
equals `delay_probability > 0.5` with strict inequality; in particular a
probability of exactly `1/2` yields `delayed = false`. -/
theorem spec_C3 :
    (∀ (model : Classifier) (d : FlightData) (count c : Nat)
        (r : PredictionResult),
      predict_delay model d count = (Except.ok r, c) →
        (r.delayed = true ↔ (1 : ℚ)/2 < r.delay_probability) ∧
        (r.delay_probability = 1/2 → r.delayed = false)) ∧
    (∀ (model : Classifier) (l : List FlightData) (count c : Nat)
        (b : BatchResult),
      predict_batch model l count = (Except.ok b, c) →
        ∀ r ∈ b.predictions,
          (r.delayed = true ↔ (1 : ℚ)/2 < r.delay_probability) ∧
          (r.delay_probability = 1/2 → r.delayed = false)) := by
  constructor
  · intro model d count c r h
    apply delayed_spec
    unfold predict_delay at h
    cases hm : model [d.distance, if d.bad_weather then 1 else 0] with
    | error e => rw [hm] at h; simp at h
    | ok p =>
      rw [hm] at h
      simp only [Prod.mk.injEq, Except.ok.injEq] at h
      rw [← h.1]
  · intro model l count c b h
    intro r hr
    apply delayed_spec
    unfold predict_batch at h
    rcases hl : predict_batch_loop model l count with ⟨inner, c''⟩
    rw [hl] at h
    cases inner with
    | error e => simp at h
    | ok results =>
      simp only [Prod.mk.injEq, Except.ok.injEq] at h
      refine predict_batch_loop_mem model l count c'' results hl r ?_
      have : b.predictions = results := by rw [← h.1]
      rw [← this]
      exact hr

/-- Witness for C3, applying it where the classifier returns exactly the
boundary distribution `(1/2, 1/2)`: the returned flag is `false`. -/
theorem spec_C3_witness :
    ((⟨"X", (1 : ℚ)/2, false⟩ : PredictionResult).delayed = true ↔
      (1 : ℚ)/2 < (⟨"X", (1 : ℚ)/2, false⟩ : PredictionResult).delay_probability) ∧
    ((⟨"X", (1 : ℚ)/2, false⟩ : PredictionResult).delay_probability = 1/2 →
      (⟨"X", (1 : ℚ)/2, false⟩ : PredictionResult).delayed = false) :=
  spec_C3.1 halfModel ⟨"X", 500, false⟩ 0 1 ⟨"X", (1 : ℚ)/2, false⟩
    (by norm_num [predict_delay, halfModel])

/-- C4: both handlers consult the classifier only on the feature vector
`buildFeatures d = [distance, bad_weather as 1 or 0]` (two classifiers that
agree on that vector produce identical behaviour), and the delay
probability of every returned prediction is the second — positive-class —
component of the classifier's two-class distribution. -/
theorem spec_C4 :
    (∀ (m₁ m₂ : Classifier) (d : FlightData) (count : Nat),
      m₁ (buildFeatures d) = m₂ (buildFeatures d) →
      predict_delay m₁ d count = predict_delay m₂ d count) ∧
    (∀ (model : Classifier) (d : FlightData) (count : Nat) (p : ℚ × ℚ),
      model (buildFeatures d) = Except.ok p →
      (predict_delay model d count).1 =
        Except.ok ⟨d.flight_id, p.2, decide ((1 : ℚ)/2 < p.2)⟩) ∧
    (∀ (model : Classifier) (proba : FlightData → ℚ × ℚ)
        (l : List FlightData) (count : Nat),
      (∀ d ∈ l, model (buildFeatures d) = Except.ok (proba d)) →
      predict_batch model l count =
        (Except.ok ⟨l.map fun d =>
            ⟨d.flight_id, (proba d).2, decide ((1 : ℚ)/2 < (proba d).2)⟩,
          l.length⟩,
         count + l.length)) := by
  refine ⟨?_, ?_, ?_⟩
  · intro m₁ m₂ d count h
    unfold predict_delay
    rw [show m₁ [d.distance, if d.bad_weather then 1 else 0]
          = m₂ [d.distance, if d.bad_weather then 1 else 0] from h]
  · intro model d count p h
    unfold predict_delay
    rw [show model [d.distance, if d.bad_weather then 1 else 0]
          = Except.ok p from h]
  · intro model proba l count h
    have hloop := predict_batch_loop_ok model proba l count
      (fun d hd => h d hd)
    unfold predict_batch
    rw [hloop]
    simp

/-- Witness for C4, applying its batch part to a one-record batch against
the concrete classifier `demoModel`. -/
theorem spec_C4_witness :
    predict_batch demoModel [⟨"A", 500, false⟩] 2
      = (Except.ok ⟨[⟨"A", (3 : ℚ)/4, decide ((1 : ℚ)/2 < (3 : ℚ)/4)⟩], 1⟩,
         2 + 1) :=
  spec_C4.2.2 demoModel (fun _ => ((1 : ℚ)/4, (3 : ℚ)/4)) [⟨"A", 500, false⟩] 2
    (fun _ _ => rfl)

/-- C5: for every schema-valid record on which the classifier succeeds, the
single handler returns the prediction built from the record's `flight_id`,
the positive-class probability, and the thresholded flag, and increments
the counter by exactly 1. -/
theorem spec_C5 (model : Classifier) (d : FlightData) (count : Nat)
    (p : ℚ × ℚ)
    (hv : flightDataValid d = true)
    (hm : model [d.distance, if d.bad_weather then 1 else 0] = Except.ok p) :
    predictRoute model d count =
      (Except.ok ⟨d.flight_id, p.2, decide ((1 : ℚ)/2 < p.2)⟩, count + 1) := by
  simp [predictRoute, hv, predict_delay, hm]

/-- Witness for C5 at a concrete record and classifier. -/
theorem spec_C5_witness :
    predictRoute demoModel ⟨"AB", 500, true⟩ 0
      = (Except.ok ⟨"AB", (3 : ℚ)/4, decide ((1 : ℚ)/2 < (3 : ℚ)/4)⟩, 0 + 1) :=
  spec_C5 demoModel ⟨"AB", 500, true⟩ 0 ((1 : ℚ)/4, (3 : ℚ)/4) rfl rfl

/-- C6: when the classifier invocation raises on a schema-valid record, the
single handler leaves the counter exactly as it was and fails with the
server-side 500 error whose detail is the fixed text followed by the
underlying cause. -/
theorem spec_C6 (model : Classifier) (d : FlightData) (count : Nat)
    (e : String)
    (hv : flightDataValid d = true)
    (hm : model [d.distance, if d.bad_weather then 1 else 0]
      = Except.error e) :
    predictRoute model d count
      = (Except.error ⟨500, "Prediction failed: " ++ e⟩, count) := by
  simp [predictRoute, hv, predict_delay, hm]

/-- Witness for C6 at a concrete record on which `flakyModel` raises. -/
theorem spec_C6_witness :
    predictRoute flakyModel ⟨"Z", 200, false⟩ 9
      = (Except.error ⟨500, "Prediction failed: " ++ "boom"⟩, 9) :=
  spec_C6 flakyModel ⟨"Z", 200, false⟩ 9 "boom" rfl rfl

lemma handle_predict_snd (model : Classifier) (start : Int) (d : FlightData)
    (count : Nat) :
    (handle model start (Request.predict d) count).2
      = (predictRoute model d count).2 := by
  unfold handle
  rcases h : predictRoute model d count with ⟨res, c⟩
  cases res <;> simp [h]

lemma handle_batch_snd (model : Classifier) (start : Int)
    (l : List FlightData) (count : Nat) :
    (handle model start (Request.predictBatch l) count).2
      = (predictBatchRoute model l count).2 := by
  unfold handle
  rcases h : predictBatchRoute model l count with ⟨res, c⟩
  cases res <;> simp [h]

lemma predictRoute_snd (model : Classifier) (d : FlightData) (count : Nat) :
    (predictRoute model d count).2 = count ∨
    (predictRoute model d count).2 = count + 1 := by
  unfold predictRoute predict_delay
  cases flightDataValid d with
  | false => simp
  | true =>
    cases model [d.distance, if d.bad_weather then 1 else 0] <;> simp

lemma predict_batch_snd (model : Classifier) (l : List FlightData)
    (count : Nat) :
    (predict_batch model l count).2 = count + scoredLen model l := by
  unfold predict_batch
  have h := predict_batch_loop_count model l count
  rcases hl : predict_batch_loop model l count with ⟨res, c⟩
  rw [hl] at h
  cases res <;> simpa using h

/-- C8: the prediction counter starts at 0 and, across the whole service
step function, moves only via successful scoring: every request leaves it
unchanged or larger (and it is a natural number, hence always ≥ 0);
`metrics`, `info` and `simulate-error` requests never change it; a failed
single prediction (validation or scoring failure) leaves it exactly as it
was; a successful single prediction adds exactly 1; and a batch request
adds exactly one per successfully scored item — `scoredLen` of the batch —
when the body passes validation, and nothing otherwise. -/
theorem spec_C8 :
    prediction_count_init = 0 ∧
    (∀ (model : Classifier) (start : Int) (req : Request) (count : Nat),
      count ≤ (handle model start req count).2) ∧
    (∀ (model : Classifier) (start now : Int) (count : Nat),
      (handle model start (Request.metricsReq now) count).2 = count) ∧
    (∀ (model : Classifier) (start : Int) (count : Nat),
      (handle model start Request.infoReq count).2 = count) ∧
    (∀ (model : Classifier) (start : Int) (b : ErrorData) (count : Nat),
      (handle model start (Request.simulateError b) count).2 = count) ∧
    (∀ (model : Classifier) (start : Int) (d : FlightData) (count : Nat)
        (e : HTTPException),
      (handle model start (Request.predict d) count).1 = Except.error e →
      (handle model start (Request.predict d) count).2 = count) ∧
    (∀ (model : Classifier) (start : Int) (d : FlightData) (count : Nat)
        (r : Response),
      (handle model start (Request.predict d) count).1 = Except.ok r →
      (handle model start (Request.predict d) count).2 = count + 1) ∧
    (∀ (model : Classifier) (start : Int) (l : List FlightData)
        (count : Nat),
      (handle model start (Request.predictBatch l) count).2 =
        if l.all flightDataValid then count + scoredLen model l
        else count) := by
  refine ⟨rfl, ?_, ?_, ?_, ?_, ?_, ?_, ?_⟩
  · intro model start req count
    cases req with
    | predict d =>
      rw [handle_predict_snd]
      rcases predictRoute_snd model d count with h | h <;> omega
    | predictBatch l =>
      rw [handle_batch_snd]
      unfold predictBatchRoute
      cases l.all flightDataValid <;> simp [predict_batch_snd]
    | metricsReq now => simp [handle]
    | infoReq => simp [handle]
    | simulateError b =>
      rcases b with ⟨rb⟩
      cases rb <;> simp [handle, simulate_error]
  · intro model start now count; simp [handle]
  · intro model start count; simp [handle]
  · intro model start b count
    rcases b with ⟨rb⟩
    cases rb <;> simp [handle, simulate_error]
  · intro model start d count e h
    rw [handle_predict_snd]
    cases hv : flightDataValid d with
    | false => simp [predictRoute, hv]
    | true =>
      cases hm : model [d.distance, if d.bad_weather then 1 else 0] with
      | error e' => simp [predictRoute, hv, predict_delay, hm]
      | ok p =>
        exfalso
        have hok : (handle model start (Request.predict d) count).1
            = Except.ok (Response.prediction
                ⟨d.flight_id, p.2, decide ((1 : ℚ)/2 < p.2)⟩) := by
          simp [handle, predictRoute, hv, predict_delay, hm]
        rw [hok] at h
        simp at h
  · intro model start d count r h
    rw [handle_predict_snd]
    cases hv : flightDataValid d with
    | false =>
      exfalso
      have herr : (handle model start (Request.predict d) count).1
          = Except.error validationError := by
        simp [handle, predictRoute, hv]
      rw [herr] at h
      simp at h
    | true =>
      cases hm : model [d.distance, if d.bad_weather then 1 else 0] with
      | error e' =>
        exfalso
        have herr : (handle model start (Request.predict d) count).1
            = Except.error ⟨500, "Prediction failed: " ++ e'⟩ := by
          simp [handle, predictRoute, hv, predict_delay, hm]
        rw [herr] at h
        simp at h
      | ok p => simp [predictRoute, hv, predict_delay, hm]
  · intro model start l count
    rw [handle_batch_snd]
    unfold predictBatchRoute
    cases l.all flightDataValid <;> simp [predict_batch_snd]

/-- Witness for C8, applying its successful-single-prediction conjunct at a
concrete request: the counter goes from 4 to 4 + 1. -/
theorem spec_C8_witness :
    (handle demoModel 0 (Request.predict ⟨"A", 500, false⟩) 4).2 = 4 + 1 :=
  spec_C8.2.2.2.2.2.2.1 demoModel 0 ⟨"A", 500, false⟩ 4
    (Response.prediction ⟨"A", (3 : ℚ)/4, true⟩)
    (by norm_num [handle, predictRoute, predict_delay, demoModel,
      flightDataValid])

/-- C10: on a batch whose records all pass schema validation, if the
classifier succeeds on the records of `pre` and raises on the next record
`bad`, the whole request fails with the 500 server-side error (no
predictions are returned at all), yet the counter afterwards is the counter
before plus `pre.length` — the increments of the records scored before the
failure are kept, so the batch is not atomic with respect to the metrics
counter. -/
theorem spec_C10 (model : Classifier) (pre : List FlightData)
    (bad : FlightData) (rest : List FlightData) (count : Nat) (e : String)
    (hvalid : (pre ++ bad :: rest).all flightDataValid = true)
    (hpre : ∀ d ∈ pre, ∃ p,
      model [d.distance, if d.bad_weather then 1 else 0] = Except.ok p)
    (hbad : model [bad.distance, if bad.bad_weather then 1 else 0]
      = Except.error e) :
    predictBatchRoute model (pre ++ bad :: rest) count
      = (Except.error ⟨500, "Batch prediction failed: " ++ e⟩,
         count + pre.length) := by
  unfold predictBatchRoute predict_batch
  rw [hvalid, predict_batch_loop_err model pre bad rest count e hpre hbad]
  simp

/-- Witness for C10: against `flakyModel`, a three-record valid batch whose
second record makes the classifier raise yields the 500 error while the
counter keeps the single increment earned by the first record. -/
theorem spec_C10_witness :
    predictBatchRoute flakyModel
      [⟨"A", 500, false⟩, ⟨"B", 200, false⟩, ⟨"C", 900, true⟩] 0
      = (Except.error ⟨500, "Batch prediction failed: " ++ "boom"⟩, 0 + 1) :=
  spec_C10 flakyModel [⟨"A", 500, false⟩] ⟨"B", 200, false⟩
    [⟨"C", 900, true⟩] 0 "boom" rfl
    (by
      intro d hd
      rw [List.mem_singleton] at hd
      subst hd
      exact ⟨((1 : ℚ)/4, (3 : ℚ)/4), rfl⟩)
    rfl

end FlightApi
